import Mathlib

/-!
# Fuori D20: Arena Market — verification of the transactional shop engine

Shallow embedding of the shop module's core: `MarketStore` (market-store.js),
the settings-backed ledger helpers (config.js: `addActivityLog`,
`addReservation`, reservations map), the GM socket request handler and result
listener (module.js), and the PlayerShop purchase/reserve entry points
(player-shop.js).

JavaScript numeric edge cases that the code relies on (`undefined`, `NaN`,
`??`, `||`, comparisons against `NaN`) are modeled explicitly by `JVal`.
Environment-provided values (wall-clock timestamps, random log-entry ids,
localized message texts) are modeled symbolically: timestamps and ids are
omitted from records, localized strings become constructors of `Msg`.
-/

namespace ArenaMarket

/-- A JavaScript number-ish value as the shop code stores and combines them:
`undef` covers `undefined`/`null` (the two nullish values, identical under
`??`), `nan` is `NaN`, `int n` a finite numeric value. -/
inductive JVal where
  | undef
  | nan
  | int (n : Int)
deriving DecidableEq

namespace JVal

/-- JS nullish coalescing `a ?? b`: `NaN` is not nullish, so only `undef`
falls through to the right operand. -/
def coal : JVal → JVal → JVal
  | undef, b => b
  | a, _ => a

/-- JS `x || 0`: `undefined`, `NaN` and `0` are all falsy and yield `0`;
`0 || 0` is again `0`, so every non-finite value collapses to `int 0`. -/
def or0 : JVal → JVal
  | int n => int n
  | _ => int 0

/-- JS `x <= 0`: a comparison involving `NaN` (or `undefined`, which converts
to `NaN`) is false. -/
def leZero : JVal → Bool
  | int n => decide (n ≤ 0)
  | _ => false

/-- JS `a >= b`: false when either side is `NaN` or `undefined`. -/
def ge : JVal → JVal → Bool
  | int a, int b => decide (b ≤ a)
  | _, _ => false

/-- JS subtraction: `NaN`-propagating; `undefined - x` is `NaN`. -/
def sub : JVal → JVal → JVal
  | int a, int b => int (a - b)
  | _, _ => nan

theorem coal_assoc (a b c : JVal) : coal a (coal b c) = coal (coal a b) c := by
  cases a <;> rfl

end JVal

/-- A stored `customPrice` value: `null`/`undefined`, the empty string, `NaN`
(what `parseFloat` returns on a non-numeric admin input), or a finite number. -/
inductive CVal where
  | nullv
  | empty
  | nanv
  | num (n : Int)
deriving DecidableEq

/-- The guard of `getItemPrice`:
`customPrice !== null && customPrice !== undefined && customPrice !== ''`. -/
def CVal.isPresent : CVal → Bool
  | .nullv => false
  | .empty => false
  | _ => true

/-- JS `Number(x)` applied to a stored customPrice value. -/
def CVal.toNumber : CVal → JVal
  | .num n => .int n
  | .nanv => .nan
  | .empty => .int 0
  | .nullv => .int 0

/- The availability-mode constants of config.js (`AVAILABILITY_TYPES`). -/
namespace AVAILABILITY_TYPES

def UNLIMITED : String := "unlimited"

def LIMITED : String := "limited"

def RESERVATION : String := "reservation"

end AVAILABILITY_TYPES

/-- MarketStore.getItemPrice: return the custom price when it is present
(non-null, non-undefined, non-empty), else `item.system?.price?.value || 0`.
`basePrice` is the item's catalog base price (`item.system?.price?.value`),
`customPrice` the shop entry's override. -/
def getItemPrice (basePrice : JVal) (customPrice : CVal) : JVal :=
  if customPrice.isPresent then customPrice.toNumber else basePrice.or0

/-- One shop catalog entry (config.js `shopConfig.items` values):
`availability` is the stored mode string (`none` when the field is absent),
`quantity` the admin-set initial quantity, `customPrice` the price override,
`currentStock` the running stock counter. -/
structure ItemConfig where
  availability : Option String
  quantity : JVal
  customPrice : CVal
  currentStock : JVal
deriving DecidableEq

/-- The persisted shop configuration (config.js `shopConfig` setting):
selected compendium ids plus the itemUuid → ItemConfig mapping, modeled as an
association list (a JS object has at most one entry per key). -/
structure ShopConfig where
  compendiums : List String
  items : List (String × ItemConfig)
deriving DecidableEq

/-- `config.items?.[itemUuid]` — lookup of one entry. -/
def ShopConfig.getItem (c : ShopConfig) (uuid : String) : Option ItemConfig :=
  (c.items.find? (fun p => p.1 == uuid)).map Prod.snd

/-- `config.items[itemUuid].currentStock = v` — in-place stock write on the
configuration object before it is persisted. -/
def ShopConfig.setItemStock (c : ShopConfig) (uuid : String) (v : JVal) : ShopConfig :=
  { c with
    items := c.items.map (fun p => if p.1 == uuid then (p.1, { p.2 with currentStock := v }) else p) }

/-- A player actor as the store reads it: id, display name, currency balance
(`actor.system.currency.gp`, kept as a `JVal` since the raw field is read
without a fallback at the deduction site), granted-item inventory, and the
resolved owning player's display name (`game.users.get(...)?.name ||
'Unknown'`, precomputed here since user resolution is an external service). -/
structure Actor where
  id : String
  name : String
  gold : JVal
  inventory : List String
  ownerPlayerName : String
deriving DecidableEq

/-- An item of the external catalog source as `fromUuid` resolves it. -/
structure CatalogItem where
  uuid : String
  name : String
  basePrice : JVal
deriving DecidableEq

/-- An activity-log record (config.js `addActivityLog` payload). The
server-assigned random id and ISO timestamp are environment-provided and not
modeled. `price`/`currency` are present on purchase entries only. -/
structure LogEntry where
  type : String
  actorId : String
  actorName : String
  playerName : String
  itemUuid : String
  itemName : String
  price : Option JVal
  currency : Option String
deriving DecidableEq

/-- One reservation record (config.js `reservations` setting values); the
ISO timestamp is environment-provided and not modeled. -/
structure Reservation where
  actorId : String
  actorName : String
  playerName : String
deriving DecidableEq

/-- The world state the shop module reads and writes: the actor directory,
the persisted settings records (shop config, activity log, reservations map,
shop-open flag, currency display name). -/
structure MarketState where
  actors : List Actor
  config : ShopConfig
  activityLog : List LogEntry
  reservations : List (String × List Reservation)
  shopOpen : Bool
  currencyName : String
deriving DecidableEq

/-- `game.actors.get(actorId)`. -/
def MarketState.findActor (s : MarketState) (actorId : String) : Option Actor :=
  s.actors.find? (fun a => a.id == actorId)

/-- `await fromUuid(itemUuid)` against the external catalog source. -/
def findItem (catalog : List CatalogItem) (uuid : String) : Option CatalogItem :=
  (catalog.find? (fun i => i.uuid == uuid))

/-- Replace the matching actor (models `actor.update` followed by
`createEmbeddedDocuments` on the same actor document). -/
def MarketState.updateActor (s : MarketState) (actorId : String) (f : Actor → Actor) : MarketState :=
  { s with actors := s.actors.map (fun a => if a.id == actorId then f a else a) }

/-- `reservations[itemUuid]` — may be absent. -/
def getRes (res : List (String × List Reservation)) (uuid : String) : Option (List Reservation) :=
  (res.find? (fun p => p.1 == uuid)).map Prod.snd

/-- config.js `addReservation(itemUuid, actorId, actorName, playerName)`:
create the key if absent, then push the record unconditionally — the
function neither checks for an existing (itemUuid, actorId) pair nor returns
a success indicator. -/
def addReservation (res : List (String × List Reservation)) (itemUuid actorId actorName playerName : String) :
    List (String × List Reservation) :=
  let entry : Reservation := ⟨actorId, actorName, playerName⟩
  match res.find? (fun p => p.1 == itemUuid) with
  | some _ => res.map (fun p => if p.1 == itemUuid then (p.1, p.2 ++ [entry]) else p)
  | none => res ++ [(itemUuid, [entry])]

/-- config.js `addActivityLog`: unshift the new entry (newest first), then
pop the last (oldest) entry when the length exceeds 500. -/
def addActivityLog (entry : LogEntry) (log : List LogEntry) : List LogEntry :=
  let l := entry :: log
  if 500 < l.length then l.dropLast else l

/-- MarketStore.getAvailableStock: `null` (here `none`) for unconfigured
items and for Unlimited entries, else `currentStock ?? quantity ?? 0`. -/
def getAvailableStock (c : ShopConfig) (uuid : String) : Option JVal :=
  match c.getItem uuid with
  | none => none
  | some itemConfig =>
    if itemConfig.availability == some AVAILABILITY_TYPES.UNLIMITED then none
    else some (itemConfig.currentStock.coal (itemConfig.quantity.coal (.int 0)))

/-- MarketStore.canAfford: `(actor.system?.currency?.gp || 0) >= price`. -/
def canAfford (actor : Actor) (price : JVal) : Bool :=
  (actor.gold.or0).ge price

/-- The user-facing result messages, symbolically (their localized texts are
environment-provided): the failure taxonomy plus the success formats. -/
inductive Msg where
  | actorNotFound
  | itemNotFound
  | itemNotConfigured
  | itemSoldOut
  | notEnoughGold (currency : String)
  | purchaseSuccess (item : String) (price : JVal) (currency : String)
  | notReservable
  | alreadyReserved
  | reservationSuccess (item : String)
deriving DecidableEq

/-- The `{success, message, newStock}` object `purchaseItem` returns;
`newStock` is the updated stock for Limited items and `null` (`none`)
otherwise, and absent on failures. -/
structure PurchaseResult where
  success : Bool
  message : Msg
  newStock : Option JVal
deriving DecidableEq

/-- The `{success, message}` object `reserveItem` returns. -/
structure ReserveResult where
  success : Bool
  message : Msg
deriving DecidableEq

/-- MarketStore.purchaseItem (market-store.js lines 69-160), returning the
result together with the post-call world state. Step order as in the source:
resolve actor, resolve item, resolve entry, Limited sold-out check on
`(currentStock ?? quantity) <= 0`, price, affordability, then the mutations
(deduct gold, grant item copy, decrement-and-persist stock for Limited,
append the activity-log entry). The purchase sound effect is presentation
and not modeled. -/
def purchaseItem (s : MarketState) (catalog : List CatalogItem) (actorId itemUuid : String) :
    PurchaseResult × MarketState :=
  match s.findActor actorId with
  | none => ({ success := false, message := .actorNotFound, newStock := none }, s)
  | some actor =>
    match findItem catalog itemUuid with
    | none => ({ success := false, message := .itemNotFound, newStock := none }, s)
    | some item =>
      match s.config.getItem itemUuid with
      | none => ({ success := false, message := .itemNotConfigured, newStock := none }, s)
      | some itemConfig =>
        if itemConfig.availability == some AVAILABILITY_TYPES.LIMITED &&
            (itemConfig.currentStock.coal itemConfig.quantity).leZero then
          ({ success := false, message := .itemSoldOut, newStock := none }, s)
        else
          let price := getItemPrice item.basePrice itemConfig.customPrice
          if !canAfford actor price then
            ({ success := false, message := .notEnoughGold s.currencyName, newStock := none }, s)
          else
            let s1 := s.updateActor actorId (fun a =>
              { a with gold := a.gold.sub price, inventory := a.inventory ++ [itemUuid] })
            let newStock : Option JVal :=
              if itemConfig.availability == some AVAILABILITY_TYPES.LIMITED then
                some ((itemConfig.currentStock.coal itemConfig.quantity).sub (.int 1))
              else none
            let s2 :=
              match newStock with
              | some ns => { s1 with config := s1.config.setItemStock itemUuid ns }
              | none => s1
            let entry : LogEntry :=
              { type := "purchase", actorId := actor.id, actorName := actor.name,
                playerName := actor.ownerPlayerName, itemUuid := itemUuid,
                itemName := item.name, price := some price, currency := some s.currencyName }
            let s3 := { s2 with activityLog := addActivityLog entry s2.activityLog }
            ({ success := true,
               message := .purchaseSuccess item.name price s.currencyName,
               newStock := newStock }, s3)

/-- N consecutive invocations of `purchaseItem` for the same actor and item,
threading the state (the serialized single-writer execution of §5). -/
def purchaseIter (catalog : List CatalogItem) (aid uuid : String) : Nat → MarketState → MarketState
  | 0, s => s
  | n + 1, s => purchaseIter catalog aid uuid n (purchaseItem s catalog aid uuid).2

/-- MarketStore.reserveItem (market-store.js lines 168-219): resolve actor
and item, require a configured entry in Reservation mode (a missing entry and
a wrong mode share the same failure), reject when this actor already holds a
reservation for the item, else record the reservation and log it. -/
def reserveItem (s : MarketState) (catalog : List CatalogItem) (actorId itemUuid : String) :
    ReserveResult × MarketState :=
  match s.findActor actorId with
  | none => ({ success := false, message := .actorNotFound }, s)
  | some actor =>
    match findItem catalog itemUuid with
    | none => ({ success := false, message := .itemNotFound }, s)
    | some item =>
      match s.config.getItem itemUuid with
      | none => ({ success := false, message := .notReservable }, s)
      | some itemConfig =>
        if !(itemConfig.availability == some AVAILABILITY_TYPES.RESERVATION) then
          ({ success := false, message := .notReservable }, s)
        else
          match ((getRes s.reservations itemUuid).getD []).find? (fun r => r.actorId == actorId) with
          | some _ => ({ success := false, message := .alreadyReserved }, s)
          | none =>
            let s1 := { s with
              reservations := addReservation s.reservations itemUuid actorId actor.name actor.ownerPlayerName }
            let entry : LogEntry :=
              { type := "reservation", actorId := actor.id, actorName := actor.name,
                playerName := actor.ownerPlayerName, itemUuid := itemUuid,
                itemName := item.name, price := none, currency := none }
            let s2 := { s1 with activityLog := addActivityLog entry s1.activityLog }
            ({ success := true, message := .reservationSuccess item.name }, s2)

/-- MarketStore.updateStock (market-store.js lines 226-232): GM-only direct
stock override; writes the given value unconditionally when the entry
exists. -/
def updateStock (s : MarketState) (itemUuid : String) (newStock : JVal) : MarketState :=
  if (s.config.getItem itemUuid).isSome then
    { s with config := s.config.setItemStock itemUuid newStock }
  else s

/-- An `_itemConfigs[uuid] = {}` fresh object in ShopManager: every field
absent. -/
def emptyItemConfig : ItemConfig :=
  { availability := none, quantity := .undef, customPrice := .nullv, currentStock := .undef }

/-- `parseInt(event.currentTarget.value) || 1` in ShopManager._onQuantityChange:
`NaN` (non-numeric input) and `0` fall back to `1`; any other integer —
including a negative one — passes through. -/
def parseIntOr1 : JVal → Int
  | .int n => if n = 0 then 1 else n
  | _ => 1

/-- ShopManager._onQuantityChange (shop-manager.js lines 217-226): write the
parsed quantity into both `quantity` and `currentStock` of the in-memory
item-config map, creating an empty config object first when absent.
`parsed` is the `parseInt` result of the raw field value. -/
def onQuantityChange (configs : List (String × ItemConfig)) (uuid : String) (parsed : JVal) :
    List (String × ItemConfig) :=
  let v := parseIntOr1 parsed
  if (configs.find? (fun p => p.1 == uuid)).isSome then
    configs.map (fun p =>
      if p.1 == uuid then (p.1, { p.2 with quantity := .int v, currentStock := .int v }) else p)
  else configs ++ [(uuid, { emptyItemConfig with quantity := .int v, currentStock := .int v })]

/-- A request message as a session puts it on the module socket channel.
`sender` is `none` when the payload carries no `sender` field — which is the
case for the requests PlayerShop emits. -/
structure SocketMessage where
  action : String
  actorId : String
  itemUuid : String
  sender : Option String
deriving DecidableEq

/-- The purchase request PlayerShop._purchaseItem emits on the socket for the
GM (player-shop.js lines 312-317): `{action: 'purchaseRequest', actorId,
itemUuid}` — note the payload has no `sender` field. -/
def playerPurchaseRequestMsg (actorId itemUuid : String) : SocketMessage :=
  ⟨"purchaseRequest", actorId, itemUuid, none⟩

/-- The reservation request PlayerShop._reserveItem emits (player-shop.js
lines 348-353); again without a `sender` field. -/
def playerReserveRequestMsg (actorId itemUuid : String) : SocketMessage :=
  ⟨"reserveRequest", actorId, itemUuid, none⟩

/-- The `purchaseResult`/`reserveResult` reply the GM handler emits:
`{action, result, targetUser}`; of the forwarded result object only the
`success` flag and message are consumed by the listener. -/
structure ResultMessage where
  action : String
  success : Bool
  message : Msg
  targetUser : Option String
deriving DecidableEq

/-- The GM-only socket request handler (module.js, `Hooks.once('ready')`,
lines 46-73): run the transaction for a `purchaseRequest`/`reserveRequest`
and reply with a result message whose `targetUser` is `data.sender`. The
handler performs no shop-open check. The broadcast notifications
(`emitItemPurchased`/`emitItemReserved`) are refresh hints and not modeled. -/
def gmSocketHandler (s : MarketState) (catalog : List CatalogItem) (data : SocketMessage) :
    Option ResultMessage × MarketState :=
  if data.action == "purchaseRequest" then
    let pr := purchaseItem s catalog data.actorId data.itemUuid
    (some ⟨"purchaseResult", pr.1.success, pr.1.message, data.sender⟩, pr.2)
  else if data.action == "reserveRequest" then
    let rr := reserveItem s catalog data.actorId data.itemUuid
    (some ⟨"reserveResult", rr.1.success, rr.1.message, data.sender⟩, rr.2)
  else (none, s)

/-- The result listener every session registers (module.js lines 77-89): a
session accepts and displays a result only when `data.targetUser ===
game.user.id` and the action is a result action. -/
def resultListenerAccepts (data : ResultMessage) (userId : String) : Bool :=
  data.targetUser == some userId &&
    (data.action == "purchaseResult" || data.action == "reserveResult")

/-- What one invocation of PlayerShop._purchaseItem does, as an outcome. -/
inductive ClientPurchaseOutcome where
  | blockedNoActor
  | blockedShopClosed
  | executed (r : PurchaseResult) (s : MarketState)
  | requestEmitted (msg : SocketMessage)
deriving DecidableEq

/-- PlayerShop._purchaseItem (player-shop.js lines 291-321): require a
selected actor, require the shop-open flag, then either execute directly
(GM session) or emit a `purchaseRequest` over the socket. -/
def playerShopPurchase (s : MarketState) (catalog : List CatalogItem)
    (selectedActorId : Option String) (isGM : Bool) (uuid : String) : ClientPurchaseOutcome :=
  match selectedActorId with
  | none => .blockedNoActor
  | some aid =>
    if !s.shopOpen then .blockedShopClosed
    else if isGM then
      let pr := purchaseItem s catalog aid uuid
      .executed pr.1 pr.2
    else .requestEmitted (playerPurchaseRequestMsg aid uuid)

/-- What one invocation of PlayerShop._reserveItem does, as an outcome. -/
inductive ClientReserveOutcome where
  | blockedNoActor
  | blockedShopClosed
  | executed (r : ReserveResult) (s : MarketState)
  | requestEmitted (msg : SocketMessage)
deriving DecidableEq

/-- PlayerShop._reserveItem (player-shop.js lines 326-357): same gating as
the purchase path, then execute directly or emit a `reserveRequest`. -/
def playerShopReserve (s : MarketState) (catalog : List CatalogItem)
    (selectedActorId : Option String) (isGM : Bool) (uuid : String) : ClientReserveOutcome :=
  match selectedActorId with
  | none => .blockedNoActor
  | some aid =>
    if !s.shopOpen then .blockedShopClosed
    else if isGM then
      let rr := reserveItem s catalog aid uuid
      .executed rr.1 rr.2
    else .requestEmitted (playerReserveRequestMsg aid uuid)

/-! ## Helper lemmas on the association-list operations -/

theorem find?_append_of_none {α : Type} (p : α → Bool) (l₁ l₂ : List α)
    (h : l₁.find? p = none) : (l₁ ++ l₂).find? p = l₂.find? p := by
  induction l₁ with
  | nil => simp
  | cons a t ih =>
    cases hpa : p a with
    | true => simp [List.find?_cons, hpa] at h
    | false =>
      simp only [List.find?_cons, hpa] at h
      simpa only [List.cons_append, List.find?_cons, hpa] using ih h

theorem find?_map_entry {β : Type} (L : List (String × β)) (uuid : String) (g : β → β) :
    ((L.map (fun p => if p.1 == uuid then (p.1, g p.2) else p)).find?
        (fun p => p.1 == uuid)).map Prod.snd =
      ((L.find? (fun p => p.1 == uuid)).map Prod.snd).map g := by
  induction L with
  | nil => rfl
  | cons a t ih =>
    cases hpa : (a.1 == uuid) with
    | true =>
      rw [List.map_cons, if_pos hpa]
      simp only [List.find?_cons, hpa]
      rfl
    | false =>
      rw [List.map_cons, if_neg (by simp [hpa])]
      simp only [List.find?_cons, hpa]
      exact ih

theorem getItem_setItemStock_self (c : ShopConfig) (uuid : String) (v : JVal) :
    (c.setItemStock uuid v).getItem uuid =
      (c.getItem uuid).map (fun cfg => { cfg with currentStock := v }) := by
  unfold ShopConfig.getItem ShopConfig.setItemStock
  exact find?_map_entry c.items uuid (fun cfg => { cfg with currentStock := v })

theorem findActor_updateActor (s : MarketState) (aid : String) (f : Actor → Actor)
    (hf : ∀ a, (f a).id = a.id) :
    (s.updateActor aid f).findActor aid = (s.findActor aid).map f := by
  unfold MarketState.findActor MarketState.updateActor
  simp only
  induction s.actors with
  | nil => rfl
  | cons a t ih =>
    cases hpa : (a.id == aid) with
    | true =>
      have hfa : ((f a).id == aid) = true := by rw [hf a]; exact hpa
      rw [List.map_cons, if_pos hpa]
      simp only [List.find?_cons, hpa, hfa]
      rfl
    | false =>
      rw [List.map_cons, if_neg (by simp [hpa])]
      simp only [List.find?_cons, hpa]
      exact ih

theorem getRes_addReservation_self (res : List (String × List Reservation))
    (uuid aid an pn : String) :
    getRes (addReservation res uuid aid an pn) uuid =
      some (((getRes res uuid).getD []) ++ [⟨aid, an, pn⟩]) := by
  unfold addReservation getRes
  cases hf : res.find? (fun p => p.1 == uuid) with
  | none =>
    simp only [hf, Option.map_none, Option.getD_none]
    rw [find?_append_of_none _ _ _ hf]
    simp [List.find?_cons]
  | some q =>
    simp only
    have h := find?_map_entry res uuid (fun l => l ++ [⟨aid, an, pn⟩])
    rw [h, hf]
    rfl

/-! ## C4 — effective price -/

/-- C4: the effective price equals the entry's customPrice whenever it is set
to a non-null, non-empty number-typed value (covering every finite value and
the NaN that `parseFloat` yields on a non-numeric admin input), regardless of
the catalog base price; otherwise (null/undefined or empty string) it equals
the catalog base price, and 0 when the base price is not a finite number
either. -/
theorem effective_price_characterization :
    (∀ (base : JVal) (n : Int), getItemPrice base (.num n) = .int n) ∧
    (∀ base : JVal, getItemPrice base .nanv = .nan) ∧
    (∀ n : Int, getItemPrice (.int n) .nullv = .int n) ∧
    (∀ n : Int, getItemPrice (.int n) .empty = .int n) ∧
    (getItemPrice .undef .nullv = .int 0) ∧
    (getItemPrice .nan .nullv = .int 0) ∧
    (getItemPrice .undef .empty = .int 0) ∧
    (getItemPrice .nan .empty = .int 0) :=
  ⟨fun _ _ => rfl, fun _ => rfl, fun _ => rfl, fun _ => rfl, rfl, rfl, rfl, rfl⟩

theorem find?_map_update_actor (L : List Actor) (aid : String) (f : Actor → Actor)
    (hf : ∀ a, (f a).id = a.id) :
    (L.map (fun a => if a.id == aid then f a else a)).find? (fun a => a.id == aid) =
      (L.find? (fun a => a.id == aid)).map f := by
  induction L with
  | nil => rfl
  | cons a t ih =>
    cases hpa : (a.id == aid) with
    | true =>
      have hfa : ((f a).id == aid) = true := by rw [hf a]; exact hpa
      rw [List.map_cons, if_pos hpa]
      simp only [List.find?_cons, hpa, hfa]
      rfl
    | false =>
      rw [List.map_cons, if_neg (by simp [hpa])]
      simp only [List.find?_cons, hpa]
      exact ih

/-- One successful Limited purchase, characterized: under the resolution
hypotheses, with checked stock `S > 0`, effective price `P` and balance
`G ≥ P`, the call succeeds, the entry's `currentStock` becomes `S - 1` and
the actor's balance becomes `G - P` with the item appended to the
inventory. -/
theorem purchase_success_step (s : MarketState) (catalog : List CatalogItem)
    (aid uuid : String) (actor : Actor) (item : CatalogItem) (cfg : ItemConfig)
    (S G P : Int)
    (ha : s.findActor aid = some actor) (hg : actor.gold = .int G)
    (hi : findItem catalog uuid = some item)
    (hc : s.config.getItem uuid = some cfg)
    (hl : cfg.availability = some AVAILABILITY_TYPES.LIMITED)
    (hs : cfg.currentStock.coal cfg.quantity = .int S) (hS : 0 < S)
    (hp : getItemPrice item.basePrice cfg.customPrice = .int P)
    (hG : P ≤ G) :
    (purchaseItem s catalog aid uuid).1.success = true ∧
    (purchaseItem s catalog aid uuid).2.config.getItem uuid =
      some { cfg with currentStock := .int (S - 1) } ∧
    (purchaseItem s catalog aid uuid).2.findActor aid =
      some { actor with gold := .int (G - P), inventory := actor.inventory ++ [uuid] } := by
  have hlz : JVal.leZero (.int S) = false := by
    simp [JVal.leZero]; omega
  have hca : canAfford actor (.int P) = true := by
    simp [canAfford, hg, JVal.or0, JVal.ge]; omega
  have hsub1 : (JVal.int S).sub (JVal.int 1) = JVal.int (S - 1) := rfl
  have hsub2 : (JVal.int G).sub (JVal.int P) = JVal.int (G - P) := rfl
  have ha' : s.actors.find? (fun a => a.id == aid) = some actor := ha
  unfold purchaseItem
  simp only [MarketState.updateActor, MarketState.findActor, ha', hi, hc, hl, hs, hp, hlz,
    hca, beq_self_eq_true, Bool.true_and, Bool.and_false, Bool.false_eq_true, if_false,
    Bool.not_true, if_true, hsub1]
  refine ⟨trivial, ?_, ?_⟩
  · rw [getItem_setItemStock_self, hc]
    simp [hl]
  · rw [find?_map_update_actor s.actors aid
      (fun a => { a with gold := a.gold.sub (JVal.int P), inventory := a.inventory ++ [uuid] })
      (fun a => rfl), ha']
    simp [hg, hsub2]

/-! ## C1 — failed purchases mutate nothing -/

/-- C1: whenever `purchaseItem` fails in steps 1-6 (actor not found, item not
found, item not configured, sold out, insufficient funds), it returns that
specific failure — one of the five failure messages, with no `newStock` —
and the world state (actors' balances and inventories, shop configuration and
stock, activity log, reservations) is exactly the state before the call. -/
theorem purchase_failure_preserves_state (s : MarketState) (catalog : List CatalogItem)
    (actorId itemUuid : String)
    (h : (purchaseItem s catalog actorId itemUuid).1.success = false) :
    (purchaseItem s catalog actorId itemUuid).2 = s ∧
    (purchaseItem s catalog actorId itemUuid).1.newStock = none ∧
    (purchaseItem s catalog actorId itemUuid).1.message ∈
      [Msg.actorNotFound, Msg.itemNotFound, Msg.itemNotConfigured, Msg.itemSoldOut,
        Msg.notEnoughGold s.currencyName] := by
  unfold purchaseItem at h ⊢
  cases hfa : s.findActor actorId with
  | none => simp [hfa]
  | some actor =>
    cases hfi : findItem catalog itemUuid with
    | none => simp [hfa, hfi]
    | some item =>
      cases hgc : s.config.getItem itemUuid with
      | none => simp [hfa, hfi, hgc]
      | some itemConfig =>
        cases hso : (itemConfig.availability == some AVAILABILITY_TYPES.LIMITED &&
            (itemConfig.currentStock.coal itemConfig.quantity).leZero) with
        | true => simp [hfa, hfi, hgc, hso]
        | false =>
          cases hca : canAfford actor (getItemPrice item.basePrice itemConfig.customPrice) with
          | false => simp [hfa, hfi, hgc, hso, hca]
          | true => simp [hfa, hfi, hgc, hso, hca] at h

/- Witness scenario for C1 (from §8): actor with balance 10, item base price
30, Unlimited entry — the purchase fails and nothing changes. -/
def c1State : MarketState :=
  ⟨[⟨"a1", "Ann", .int 10, [], "P1"⟩],
   ⟨[], [("i1", ⟨some AVAILABILITY_TYPES.UNLIMITED, .int 1, .nullv, .undef⟩)]⟩,
   [], [], true, "Ori"⟩

def c1Catalog : List CatalogItem := [⟨"i1", "Sword", .int 30⟩]

/-- Witness for C1: the insufficient-funds scenario instantiates the
hypothesis. -/
theorem purchase_failure_preserves_state_witness :
    (purchaseItem c1State c1Catalog "a1" "i1").2 = c1State ∧
    (purchaseItem c1State c1Catalog "a1" "i1").1.newStock = none ∧
    (purchaseItem c1State c1Catalog "a1" "i1").1.message ∈
      [Msg.actorNotFound, Msg.itemNotFound, Msg.itemNotConfigured, Msg.itemSoldOut,
        Msg.notEnoughGold c1State.currencyName] :=
  purchase_failure_preserves_state c1State c1Catalog "a1" "i1" (by decide)

/-! ## C2 — Limited purchases: stock S − N after N successes -/

/-- C2: for a Limited entry, each successful purchase decrements the checked
stock (`currentStock`, falling back to `quantity`) by exactly 1 and deducts
exactly the effective price, so after N consecutive successful purchases
starting from stock `S` (with `N ≤ S`, nonnegative price `P` and balance
`G ≥ N·P`, which make every step succeed) the available stock equals `S − N`
and the actor's balance equals `G − N·P`, with N item copies granted. -/
theorem limited_purchase_stock_after_iter (catalog : List CatalogItem) (aid uuid : String)
    (N : Nat) :
    ∀ (s : MarketState) (actor : Actor) (item : CatalogItem) (cfg : ItemConfig) (S G P : Int),
    s.findActor aid = some actor → actor.gold = .int G →
    findItem catalog uuid = some item →
    s.config.getItem uuid = some cfg →
    cfg.availability = some AVAILABILITY_TYPES.LIMITED →
    cfg.currentStock.coal cfg.quantity = .int S →
    getItemPrice item.basePrice cfg.customPrice = .int P →
    (N : Int) ≤ S → 0 ≤ P → (N : Int) * P ≤ G →
    getAvailableStock (purchaseIter catalog aid uuid N s).config uuid = some (.int (S - N)) ∧
    ∃ a : Actor, (purchaseIter catalog aid uuid N s).findActor aid = some a ∧
      a.gold = .int (G - N * P) ∧ a.inventory = actor.inventory ++ List.replicate N uuid := by
  induction N with
  | zero =>
    intro s actor item cfg S G P ha hg hi hc hl hs hp _ _ _
    have hbne : (some AVAILABILITY_TYPES.LIMITED == some AVAILABILITY_TYPES.UNLIMITED) = false := by
      decide
    constructor
    · unfold purchaseIter getAvailableStock
      simp only [hc, hl, hbne, Bool.false_eq_true, if_false]
      rw [JVal.coal_assoc, hs]
      simp [JVal.coal]
    · exact ⟨actor, ha, by rw [hg]; simp, by simp⟩
  | succ n ih =>
    intro s actor item cfg S G P ha hg hi hc hl hs hp hNS hP hNG
    have hcast : ((n + 1 : ℕ) : ℤ) * P = (n : ℤ) * P + P := by push_cast; ring
    have hnP : 0 ≤ (n : ℤ) * P := mul_nonneg (by positivity) hP
    have hS : 0 < S := by push_cast at hNS; omega
    have hPG : P ≤ G := by linarith [hcast, hNG]
    obtain ⟨hsucc, hc', ha'⟩ :=
      purchase_success_step s catalog aid uuid actor item cfg S G P ha hg hi hc hl hs hS hp hPG
    obtain ⟨h1, a, ha2, ha3, ha4⟩ :=
      ih (purchaseItem s catalog aid uuid).2
        { actor with gold := .int (G - P), inventory := actor.inventory ++ [uuid] }
        item { cfg with currentStock := .int (S - 1) } (S - 1) (G - P) P
        ha' rfl hi hc' hl rfl hp (by push_cast at hNS ⊢; omega) hP
        (by rw [hcast] at hNG; linarith)
    have hstep : purchaseIter catalog aid uuid (n + 1) s =
        purchaseIter catalog aid uuid n (purchaseItem s catalog aid uuid).2 := rfl
    rw [hstep]
    constructor
    · rw [h1]
      have hx : S - 1 - (n : ℤ) = S - ((n + 1 : ℕ) : ℤ) := by push_cast; ring
      rw [hx]
    · refine ⟨a, ha2, ?_, ?_⟩
      · rw [ha3]
        have hx : G - P - (n : ℤ) * P = G - ((n + 1 : ℕ) : ℤ) * P := by push_cast; ring
        rw [hx]
      · rw [ha4]
        simp [List.replicate_succ]

/- Witness scenario for C2: balance 50, effective price 5 (base price),
Limited stock 3 (quantity 3, currentStock unset), two purchases. -/
def c2State : MarketState :=
  ⟨[⟨"a1", "Ann", .int 50, [], "P1"⟩],
   ⟨[], [("i1", ⟨some AVAILABILITY_TYPES.LIMITED, .int 3, .nullv, .undef⟩)]⟩,
   [], [], true, "Ori"⟩

def c2Catalog : List CatalogItem := [⟨"i1", "Sword", .int 5⟩]

/-- Witness for C2 at N = 2: stock 3 becomes 1, balance 50 becomes 40. -/
theorem limited_purchase_stock_after_iter_witness :
    getAvailableStock (purchaseIter c2Catalog "a1" "i1" 2 c2State).config "i1" =
      some (.int 1) ∧
    ∃ a : Actor, (purchaseIter c2Catalog "a1" "i1" 2 c2State).findActor "a1" = some a ∧
      a.gold = .int 40 ∧ a.inventory = ["i1", "i1"] :=
  limited_purchase_stock_after_iter c2Catalog "a1" "i1" 2 c2State
    ⟨"a1", "Ann", .int 50, [], "P1"⟩ ⟨"i1", "Sword", .int 5⟩
    ⟨some AVAILABILITY_TYPES.LIMITED, .int 3, .nullv, .undef⟩ 3 50 5
    (by decide) rfl (by decide) (by decide) rfl rfl rfl
    (by decide) (by decide) (by decide)

/-! ## C3 — the SoldOut check -/

/- Counterexample state for C3 as stated: Limited entry with neither
currentStock nor quantity set, actor with ample balance. -/
def c3State : MarketState :=
  ⟨[⟨"a1", "Ann", .int 100, [], "P1"⟩],
   ⟨[], [("i1", ⟨some AVAILABILITY_TYPES.LIMITED, .undef, .nullv, .undef⟩)]⟩,
   [], [], true, "Ori"⟩

def c3Catalog : List CatalogItem := [⟨"i1", "Sword", .int 5⟩]

/-- Counterexample to C3 as stated: for a Limited entry with neither
`currentStock` nor `quantity` set, `getAvailableStock` reports 0 (the
claim's `availableStock ≤ 0` side holds), yet the purchase does not fail
with SoldOut — it succeeds — because the purchase-time check
`(currentStock ?? quantity) <= 0` compares `undefined` (hence `NaN`), which
is false. -/
theorem soldout_iff_counterexample :
    getAvailableStock c3State.config "i1" = some (.int 0) ∧
    (purchaseItem c3State c3Catalog "a1" "i1").1.message ≠ Msg.itemSoldOut ∧
    (purchaseItem c3State c3Catalog "a1" "i1").1.success = true := by
  decide

/-- C3 (amended): given the actor, the item and the entry all resolve and
the mode is Limited, the purchase fails with SoldOut iff the checked value
`currentStock ?? quantity` is a number ≤ 0 (the JS comparison is false when
both fields are unset); a SoldOut message always comes with `success =
false`. -/
theorem soldout_iff_checked_stock (s : MarketState) (catalog : List CatalogItem)
    (aid uuid : String) (actor : Actor) (item : CatalogItem) (cfg : ItemConfig)
    (ha : s.findActor aid = some actor)
    (hi : findItem catalog uuid = some item)
    (hc : s.config.getItem uuid = some cfg)
    (hl : cfg.availability = some AVAILABILITY_TYPES.LIMITED) :
    ((purchaseItem s catalog aid uuid).1.message = Msg.itemSoldOut ↔
      (cfg.currentStock.coal cfg.quantity).leZero = true) ∧
    ((purchaseItem s catalog aid uuid).1.message = Msg.itemSoldOut →
      (purchaseItem s catalog aid uuid).1.success = false) := by
  have ha' : s.actors.find? (fun a => a.id == aid) = some actor := ha
  unfold purchaseItem
  cases hz : (cfg.currentStock.coal cfg.quantity).leZero with
  | true =>
    simp only [MarketState.findActor, ha', hi, hc, hl, hz, beq_self_eq_true,
      Bool.true_and, if_true]
    simp
  | false =>
    simp only [MarketState.findActor, ha', hi, hc, hl, hz, beq_self_eq_true,
      Bool.true_and, Bool.false_eq_true, if_false]
    cases hca : canAfford actor (getItemPrice item.basePrice cfg.customPrice) with
    | false => simp [hca]
    | true => simp [hca]

/- Witness scenario for C3 amended: Limited entry with currentStock 0,
actor with sufficient balance. -/
def c3wState : MarketState :=
  ⟨[⟨"a1", "Ann", .int 100, [], "P1"⟩],
   ⟨[], [("i1", ⟨some AVAILABILITY_TYPES.LIMITED, .int 5, .nullv, .int 0⟩)]⟩,
   [], [], true, "Ori"⟩

/-- Witness for C3 amended: Limited item with stock 0 fails with SoldOut
even though the actor could afford it. -/
theorem soldout_iff_checked_stock_witness :
    (purchaseItem c3wState c3Catalog "a1" "i1").1.message = Msg.itemSoldOut :=
  (soldout_iff_checked_stock c3wState c3Catalog "a1" "i1"
    ⟨"a1", "Ann", .int 100, [], "P1"⟩ ⟨"i1", "Sword", .int 5⟩
    ⟨some AVAILABILITY_TYPES.LIMITED, .int 5, .nullv, .int 0⟩
    (by decide) (by decide) (by decide) rfl).1.mpr (by decide)

/-! ## C5 — the shop-open gate -/

/- Counterexample state for C5 as stated: shop closed, otherwise valid
purchase (balance 50, base price 30, Unlimited entry). -/
def c5State : MarketState :=
  ⟨[⟨"a1", "Ann", .int 50, [], "P1"⟩],
   ⟨[], [("i1", ⟨some AVAILABILITY_TYPES.UNLIMITED, .int 1, .nullv, .undef⟩)]⟩,
   [], [], false, "Ori"⟩

def c5Catalog : List CatalogItem := [⟨"i1", "Sword", .int 30⟩]

/-- Counterexample to C5 as stated: with the shop-open flag false, a
`purchaseRequest` processed by the GM socket handler is still executed and
committed — the actor's balance drops from 50 to 20, the item is granted and
a log entry is appended — because neither the handler nor
`MarketStore.purchaseItem` checks the flag. -/
theorem shop_closed_handler_counterexample :
    c5State.shopOpen = false ∧
    (gmSocketHandler c5State c5Catalog (playerPurchaseRequestMsg "a1" "i1")).2.findActor "a1" =
      some ⟨"a1", "Ann", .int 20, ["i1"], "P1"⟩ ∧
    (gmSocketHandler c5State c5Catalog (playerPurchaseRequestMsg "a1" "i1")).2.activityLog.length
      = 1 := by
  decide

/-- C5 (amended): the shop-open gate is enforced only at the PlayerShop entry
points — while the flag is false `_purchaseItem`/`_reserveItem` block before
executing locally or emitting any request, on GM and player sessions alike;
the authoritative socket request handler performs no shop-open re-check, so a
request that reaches it while the shop is closed is still committed (see the
counterexample). -/
theorem shop_closed_blocks_player_shop (s : MarketState) (catalog : List CatalogItem)
    (aid uuid : String) (isGM : Bool) (h : s.shopOpen = false) :
    playerShopPurchase s catalog (some aid) isGM uuid = .blockedShopClosed ∧
    playerShopReserve s catalog (some aid) isGM uuid = .blockedShopClosed := by
  constructor <;> simp [playerShopPurchase, playerShopReserve, h]

/-- Witness for C5 amended at the counterexample state. -/
theorem shop_closed_blocks_player_shop_witness :
    playerShopPurchase c5State c5Catalog (some "a1") false "i1" = .blockedShopClosed ∧
    playerShopReserve c5State c5Catalog (some "a1") false "i1" = .blockedShopClosed :=
  shop_closed_blocks_player_shop c5State c5Catalog "a1" "i1" false (by decide)

/-! ## C6 — at most one reservation per (item, actor) through reserveItem -/

/-- C6: starting from a state in which neither actor holds a reservation for
the item (and actor, item and Reservation-mode entry all resolve), the first
reservation by actor 1 succeeds; a second attempt by the same actor always
fails with AlreadyReserved and leaves the whole state — in particular the
reservation list — unchanged; a different actor's attempt succeeds and
appends an independent record, so the list holds exactly one entry per
distinct actor. -/
theorem reservation_unique_per_actor (s : MarketState) (catalog : List CatalogItem)
    (aid1 aid2 uuid : String) (a1 a2 : Actor) (item : CatalogItem) (cfg : ItemConfig)
    (ha1 : s.findActor aid1 = some a1) (ha2 : s.findActor aid2 = some a2)
    (hi : findItem catalog uuid = some item)
    (hc : s.config.getItem uuid = some cfg)
    (hr : cfg.availability = some AVAILABILITY_TYPES.RESERVATION)
    (hn1 : ((getRes s.reservations uuid).getD []).find? (fun r => r.actorId == aid1) = none)
    (hn2 : ((getRes s.reservations uuid).getD []).find? (fun r => r.actorId == aid2) = none)
    (hne : aid2 ≠ aid1) :
    (reserveItem s catalog aid1 uuid).1.success = true ∧
    (reserveItem (reserveItem s catalog aid1 uuid).2 catalog aid1 uuid).1 =
      ⟨false, Msg.alreadyReserved⟩ ∧
    (reserveItem (reserveItem s catalog aid1 uuid).2 catalog aid1 uuid).2 =
      (reserveItem s catalog aid1 uuid).2 ∧
    (reserveItem (reserveItem s catalog aid1 uuid).2 catalog aid2 uuid).1.success = true ∧
    getRes (reserveItem (reserveItem s catalog aid1 uuid).2 catalog aid2 uuid).2.reservations
        uuid =
      some (((getRes s.reservations uuid).getD []) ++
        [⟨aid1, a1.name, a1.ownerPlayerName⟩, ⟨aid2, a2.name, a2.ownerPlayerName⟩]) := by
  have ha1' : s.actors.find? (fun a => a.id == aid1) = some a1 := ha1
  have ha2' : s.actors.find? (fun a => a.id == aid2) = some a2 := ha2
  have H1 : reserveItem s catalog aid1 uuid =
      (⟨true, .reservationSuccess item.name⟩,
       { s with
         reservations := addReservation s.reservations uuid aid1 a1.name a1.ownerPlayerName,
         activityLog := addActivityLog
           ⟨"reservation", a1.id, a1.name, a1.ownerPlayerName, uuid, item.name, none, none⟩
           s.activityLog }) := by
    unfold reserveItem
    simp only [MarketState.findActor, ha1', hi, hc, hr, beq_self_eq_true, Bool.not_true,
      Bool.false_eq_true, if_false, hn1]
  have hg1 : getRes (addReservation s.reservations uuid aid1 a1.name a1.ownerPlayerName) uuid =
      some (((getRes s.reservations uuid).getD []) ++ [⟨aid1, a1.name, a1.ownerPlayerName⟩]) :=
    getRes_addReservation_self s.reservations uuid aid1 a1.name a1.ownerPlayerName
  have hne' : (aid1 == aid2) = false := by
    rw [beq_eq_false_iff_ne]; exact fun h => hne h.symm
  have H2 : reserveItem (reserveItem s catalog aid1 uuid).2 catalog aid1 uuid =
      (⟨false, Msg.alreadyReserved⟩, (reserveItem s catalog aid1 uuid).2) := by
    rw [H1]
    unfold reserveItem
    simp only [MarketState.findActor, ha1', hi, hc, hr, beq_self_eq_true, Bool.not_true,
      Bool.false_eq_true, if_false, hg1, Option.getD_some]
    rw [find?_append_of_none _ _ _ hn1]
    simp [List.find?_cons]
  have H3 : reserveItem (reserveItem s catalog aid1 uuid).2 catalog aid2 uuid =
      (⟨true, .reservationSuccess item.name⟩,
       { s with
         reservations := addReservation
           (addReservation s.reservations uuid aid1 a1.name a1.ownerPlayerName)
           uuid aid2 a2.name a2.ownerPlayerName,
         activityLog := addActivityLog
           ⟨"reservation", a2.id, a2.name, a2.ownerPlayerName, uuid, item.name, none, none⟩
           (addActivityLog
             ⟨"reservation", a1.id, a1.name, a1.ownerPlayerName, uuid, item.name, none, none⟩
             s.activityLog) }) := by
    rw [H1]
    unfold reserveItem
    simp only [MarketState.findActor, ha2', hi, hc, hr, beq_self_eq_true, Bool.not_true,
      Bool.false_eq_true, if_false, hg1, Option.getD_some]
    rw [find?_append_of_none _ _ _ hn2]
    simp [List.find?_cons, hne']
  refine ⟨by rw [H1], by rw [H2], by rw [H2], by rw [H3], ?_⟩
  rw [H3]
  have hg2 : getRes (addReservation
      (addReservation s.reservations uuid aid1 a1.name a1.ownerPlayerName)
      uuid aid2 a2.name a2.ownerPlayerName) uuid =
      some ((((getRes s.reservations uuid).getD []) ++ [⟨aid1, a1.name, a1.ownerPlayerName⟩])
        ++ [⟨aid2, a2.name, a2.ownerPlayerName⟩]) := by
    rw [getRes_addReservation_self, hg1]
    rfl
  simpa [List.append_assoc] using hg2

/- Witness scenario for C6 (from §8): actor A reserves, A again fails, B
succeeds with an independent record. -/
def c6State : MarketState :=
  ⟨[⟨"a1", "Ann", .int 0, [], "P1"⟩, ⟨"b1", "Bob", .int 0, [], "P2"⟩],
   ⟨[], [("i1", ⟨some AVAILABILITY_TYPES.RESERVATION, .int 1, .nullv, .undef⟩)]⟩,
   [], [], true, "Ori"⟩

def c6Catalog : List CatalogItem := [⟨"i1", "Sword", .int 30⟩]

/-- Witness for C6 at the two-actor scenario. -/
theorem reservation_unique_per_actor_witness :
    (reserveItem c6State c6Catalog "a1" "i1").1.success = true ∧
    (reserveItem (reserveItem c6State c6Catalog "a1" "i1").2 c6Catalog "a1" "i1").1 =
      ⟨false, Msg.alreadyReserved⟩ ∧
    (reserveItem (reserveItem c6State c6Catalog "a1" "i1").2 c6Catalog "a1" "i1").2 =
      (reserveItem c6State c6Catalog "a1" "i1").2 ∧
    (reserveItem (reserveItem c6State c6Catalog "a1" "i1").2 c6Catalog "b1" "i1").1.success
      = true ∧
    getRes (reserveItem (reserveItem c6State c6Catalog "a1" "i1").2
        c6Catalog "b1" "i1").2.reservations "i1" =
      some [⟨"a1", "Ann", "P1"⟩, ⟨"b1", "Bob", "P2"⟩] :=
  reservation_unique_per_actor c6State c6Catalog "a1" "b1" "i1"
    ⟨"a1", "Ann", .int 0, [], "P1"⟩ ⟨"b1", "Bob", .int 0, [], "P2"⟩
    ⟨"i1", "Sword", .int 30⟩ ⟨some AVAILABILITY_TYPES.RESERVATION, .int 1, .nullv, .undef⟩
    (by decide) (by decide) (by decide) (by decide) rfl (by decide) (by decide) (by decide)

/-! ## C7 — what addReservation itself does -/

/-- Counterexample to C7 as stated: called on a reservation map that already
holds a record for the same (itemRef, actorId) pair, `addReservation` still
appends — the list for the item ends up with two records for the same actor
(and the function, returning only the updated map, yields no indicator of
whether an addition occurred). -/
theorem addReservation_duplicate_counterexample :
    getRes (addReservation [("i1", [⟨"a1", "Ann", "P1"⟩])] "i1" "a1" "Ann" "P1") "i1" =
      some [⟨"a1", "Ann", "P1"⟩, ⟨"a1", "Ann", "P1"⟩] := by
  decide

/-- C7 (amended): config.js `addReservation` appends the new record to the
item's list unconditionally — the list always grows by exactly one, whether
or not a record for the same (itemRef, actorId) pair already exists — and
returns no success indicator; the duplicate-pair check lives in its caller
`reserveItem`, before the call. -/
theorem addReservation_appends_unconditionally
    (res : List (String × List Reservation)) (uuid aid an pn : String) :
    getRes (addReservation res uuid aid an pn) uuid =
      some (((getRes res uuid).getD []) ++ [⟨aid, an, pn⟩]) ∧
    ((getRes (addReservation res uuid aid an pn) uuid).getD []).length =
      ((getRes res uuid).getD []).length + 1 := by
  refine ⟨getRes_addReservation_self res uuid aid an pn, ?_⟩
  rw [getRes_addReservation_self res uuid aid an pn]
  simp

/-! ## C8 — result routing back to the requester -/

/-- C8: the requests PlayerShop emits carry no `sender` field, so the GM
handler's reply is tagged with `targetUser = undefined`; the result listener
requires `data.targetUser === game.user.id`, which is then false for every
session — no session, the originating one included, ever accepts and
displays the result. This contradicts the claim that exactly the originating
session accepts it (code_bug: the handler's own comment says it notifies the
requesting player). -/
theorem purchase_result_targets_no_session (s : MarketState) (catalog : List CatalogItem)
    (aid uuid userId : String) :
    ((gmSocketHandler s catalog (playerPurchaseRequestMsg aid uuid)).1.map
      (fun m => resultListenerAccepts m userId)) = some false ∧
    ((gmSocketHandler s catalog (playerReserveRequestMsg aid uuid)).1.map
      (fun m => resultListenerAccepts m userId)) = some false := by
  have hs : ("reserveRequest" == "purchaseRequest") = false := by decide
  constructor <;>
    simp [gmSocketHandler, playerPurchaseRequestMsg, playerReserveRequestMsg,
      resultListenerAccepts, hs]

/-! ## C9 — the activity log is bounded to 500 entries -/

theorem addActivityLog_length_le (e : LogEntry) (l : List LogEntry) (h : l.length ≤ 500) :
    (addActivityLog e l).length ≤ 500 := by
  unfold addActivityLog
  by_cases h5 : 500 < (e :: l).length
  · rw [if_pos h5]
    rw [List.length_dropLast, List.length_cons]
    omega
  · rw [if_neg h5]
    rw [List.length_cons] at h5 ⊢
    omega

theorem foldl_addActivityLog_le (entries : List LogEntry) :
    ∀ l : List LogEntry, l.length ≤ 500 →
      ((entries.foldl (fun acc e => addActivityLog e acc) l).length ≤ 500) := by
  induction entries with
  | nil => intro l h; simpa using h
  | cons e t ih =>
    intro l h
    exact ih _ (addActivityLog_length_le e l h)

/-- C9: starting from the default empty log, any sequence of appends leaves
at most 500 entries; an append onto a log that already holds exactly 500
entries prepends the new entry and evicts exactly the oldest one (the last
entry — the log is kept newest-first), keeping the length at 500. -/
theorem activity_log_bounded :
    (∀ entries : List LogEntry,
      ((entries.foldl (fun acc e => addActivityLog e acc) ([] : List LogEntry)).length ≤ 500)) ∧
    (∀ (e : LogEntry) (log : List LogEntry), log.length = 500 →
      addActivityLog e log = e :: log.dropLast ∧ (addActivityLog e log).length = 500) := by
  constructor
  · intro entries
    exact foldl_addActivityLog_le entries [] (by simp)
  · intro e log h
    have hne : log ≠ [] := by
      intro hx
      rw [hx] at h
      simp at h
    have h5 : 500 < (e :: log).length := by
      rw [List.length_cons, h]
      omega
    constructor
    · unfold addActivityLog
      rw [if_pos h5]
      exact List.dropLast_cons_of_ne_nil hne
    · unfold addActivityLog
      rw [if_pos h5]
      rw [List.length_dropLast, List.length_cons, h]

def c9Entry : LogEntry :=
  ⟨"purchase", "a1", "Ann", "P1", "i1", "Sword", some (.int 1), some "Ori"⟩

/-- Witness for C9 at a concrete full log of 500 identical entries. -/
theorem activity_log_bounded_witness :
    addActivityLog c9Entry (List.replicate 500 c9Entry) =
      c9Entry :: (List.replicate 500 c9Entry).dropLast ∧
    (addActivityLog c9Entry (List.replicate 500 c9Entry)).length = 500 :=
  activity_log_bounded.2 c9Entry (List.replicate 500 c9Entry) (by rw [List.length_replicate])

/-! ## C10 — currentStock and negativity -/

/-- Counterexample to C10 as stated: the admin direct stock override
(`updateStock`) writes the supplied value without validation, so a negative
input makes `currentStock` negative; likewise the admin quantity edit
(`_onQuantityChange`) passes a negative parsed integer through
(`parseInt(v) || 1` only remaps 0 and NaN). -/
theorem stock_negative_counterexample :
    ((updateStock
        ⟨[], ⟨[], [("i1", ⟨some AVAILABILITY_TYPES.LIMITED, .int 3, .nullv, .int 3⟩)]⟩,
         [], [], true, "Ori"⟩
        "i1" (.int (-1))).config.getItem "i1").map ItemConfig.currentStock =
      some (.int (-1)) ∧
    ((onQuantityChange [("i1", ⟨some AVAILABILITY_TYPES.LIMITED, .int 3, .nullv, .int 3⟩)]
        "i1" (.int (-5))).find? (fun p => p.1 == "i1")).map
      (fun p => p.2.currentStock) = some (.int (-5)) := by
  decide

/-- C10 (amended): the purchase-time decrement does preserve
`currentStock ≥ 0` — it only runs after the sold-out check, so the checked
stock `S` is at least 1 and the written value is `S − 1 ≥ 0`; the admin
direct override, by contrast, stores whatever value it is given (no clamping
— negative admin inputs are the counterexample). -/
theorem stock_nonneg_purchase_decrement (s : MarketState) (catalog : List CatalogItem)
    (aid uuid : String) (actor : Actor) (item : CatalogItem) (cfg : ItemConfig)
    (S G P : Int)
    (ha : s.findActor aid = some actor) (hg : actor.gold = .int G)
    (hi : findItem catalog uuid = some item)
    (hc : s.config.getItem uuid = some cfg)
    (hl : cfg.availability = some AVAILABILITY_TYPES.LIMITED)
    (hs : cfg.currentStock.coal cfg.quantity = .int S) (hS : 0 < S)
    (hp : getItemPrice item.basePrice cfg.customPrice = .int P)
    (hG : P ≤ G) :
    ((purchaseItem s catalog aid uuid).2.config.getItem uuid).map ItemConfig.currentStock =
      some (.int (S - 1)) ∧
    0 ≤ S - 1 ∧
    (∀ v : JVal,
      ((updateStock s uuid v).config.getItem uuid).map ItemConfig.currentStock = some v) := by
  obtain ⟨_, hc', _⟩ :=
    purchase_success_step s catalog aid uuid actor item cfg S G P ha hg hi hc hl hs hS hp hG
  refine ⟨by rw [hc']; rfl, by omega, ?_⟩
  intro v
  unfold updateStock
  rw [if_pos (by rw [hc]; rfl)]
  rw [getItem_setItemStock_self, hc]
  rfl

/-- Witness for C10 amended: Limited stock 2, price 5, balance 9 — after the
purchase `currentStock` is 1; and `updateStock` writes 7 verbatim. -/
theorem stock_nonneg_purchase_decrement_witness :
    ((purchaseItem
        ⟨[⟨"a1", "Ann", .int 9, [], "P1"⟩],
         ⟨[], [("i1", ⟨some AVAILABILITY_TYPES.LIMITED, .int 2, .nullv, .int 2⟩)]⟩,
         [], [], true, "Ori"⟩
        [⟨"i1", "Sword", .int 5⟩] "a1" "i1").2.config.getItem "i1").map
      ItemConfig.currentStock = some (.int 1) ∧
    (0 : Int) ≤ 1 ∧
    (∀ v : JVal,
      ((updateStock
          ⟨[⟨"a1", "Ann", .int 9, [], "P1"⟩],
           ⟨[], [("i1", ⟨some AVAILABILITY_TYPES.LIMITED, .int 2, .nullv, .int 2⟩)]⟩,
           [], [], true, "Ori"⟩
          "i1" v).config.getItem "i1").map ItemConfig.currentStock = some v) :=
  stock_nonneg_purchase_decrement
    ⟨[⟨"a1", "Ann", .int 9, [], "P1"⟩],
     ⟨[], [("i1", ⟨some AVAILABILITY_TYPES.LIMITED, .int 2, .nullv, .int 2⟩)]⟩,
     [], [], true, "Ori"⟩
    [⟨"i1", "Sword", .int 5⟩] "a1" "i1"
    ⟨"a1", "Ann", .int 9, [], "P1"⟩ ⟨"i1", "Sword", .int 5⟩
    ⟨some AVAILABILITY_TYPES.LIMITED, .int 2, .nullv, .int 2⟩ 2 9 5
    (by decide) rfl (by decide) (by decide) rfl rfl (by decide) rfl (by decide)

end ArenaMarket
